import Mathlib

/-!
Shallow embedding of the OIDC agent handlers
(`pkg/oidcagent/handlers.go` of nerdalert/apex-upstream).

Each gin handler becomes a pure Lean function from an environment record
(the results the handler would obtain from external collaborators: the
JSON binder, the URL parser, cookies, the OAuth2/OIDC provider client,
the random source, the session store save call) and the current session
contents, to an output record capturing the HTTP status, response
cookies and headers, the session contents after the handler ran, whether
a successful `session.Save()` persisted them, and which provider calls
were made.
-/

namespace OidcAgent

/-- HTTP status constants used by the handlers (net/http). -/
def StatusOK : Nat := 200

def StatusNoContent : Nat := 204

def StatusBadRequest : Nat := 400

def StatusUnauthorized : Nat := 401

def StatusInternalServerError : Nat := 500

/-- Session key for the serialized OAuth2 token (handlers.go `TokenKey`). -/
def TokenKey : String := "token"

/-- Session key for the raw ID token (handlers.go `IDTokenKey`). -/
def IDTokenKey : String := "id_token"

/-- The ginsession session: a mapping from string keys to string values.
`Get` returns the most recent `Set` for a key; `Delete` removes a key. -/
structure Session where
  entries : List (String × String)
deriving DecidableEq, Repr

/-- Session lookup (ginsession `session.Get`). -/
def Session.get (s : Session) (k : String) : Option String :=
  (s.entries.find? (fun p => p.1 == k)).map Prod.snd

/-- Session write (ginsession `session.Set`): the new binding shadows older ones. -/
def Session.set (s : Session) (k v : String) : Session :=
  ⟨(k, v) :: s.entries⟩

/-- Session removal (ginsession `session.Delete`). -/
def Session.delete (s : Session) (k : String) : Session :=
  ⟨s.entries.filter (fun p => p.1 != k)⟩

/-- Base64 raw URL alphabet (encoding/base64 `RawURLEncoding`): A-Z a-z 0-9 - _ . -/
def b64Char (n : Nat) : Char :=
  if n < 26 then Char.ofNat (65 + n)
  else if n < 52 then Char.ofNat (97 + (n - 26))
  else if n < 62 then Char.ofNat (48 + (n - 52))
  else if n = 62 then Char.ofNat 45
  else Char.ofNat 95

/-- Base64 raw URL encoding (no padding) of a byte list, as in
`base64.RawURLEncoding.EncodeToString`. Bytes are Nats below 256. -/
def base64RawURL : List Nat → List Char
  | [] => []
  | [b1] => [b64Char (b1 / 4 % 64), b64Char (b1 % 4 * 16)]
  | [b1, b2] =>
      [b64Char (b1 / 4 % 64), b64Char (b1 % 4 * 16 + b2 / 16), b64Char (b2 % 16 * 4)]
  | b1 :: b2 :: b3 :: rest =>
      b64Char (b1 / 4 % 64) :: b64Char (b1 % 4 * 16 + b2 / 16) ::
        b64Char (b2 % 16 * 4 + b3 / 64) :: b64Char (b3 % 64) :: base64RawURL rest

/-- handlers.go `randString(nByte)`: read `nByte` random bytes (io.ReadFull on
crypto/rand), base64url-encode them. `readResult` is what the random source
delivered: `none` models an entropy-source failure; a full read has exactly
`nByte` bytes. -/
def randString (nByte : Nat) (readResult : Option (List Nat)) : Option String :=
  match readResult with
  | none => none
  | some bs => if bs.length = nByte then some (String.mk (base64RawURL bs)) else none

/-- Hex digit (encoding/hex, lower case). -/
def hexChar (n : Nat) : Char :=
  if n < 10 then Char.ofNat (48 + n) else Char.ofNat (87 + n)

/-- Hex encoding of a byte list (encoding/hex `EncodeToString`). -/
def hexEncode : List Nat → List Char
  | [] => []
  | b :: rest => hexChar (b / 16) :: hexChar (b % 16) :: hexEncode rest

/-- handlers.go `generateNewSID`: 16 random bytes, hex-encoded. -/
def generateNewSID (readResult : Option (List Nat)) : Option String :=
  match readResult with
  | none => none
  | some bs => if bs.length = 16 then some (String.mk (hexEncode bs)) else none

/-- SameSite attribute of a response cookie (gin `c.SetSameSite`). -/
inductive SameSite where
  | defaultMode
  | strictMode
deriving DecidableEq, Repr

/-- A Set-Cookie action performed on the response (gin `c.SetCookie` arguments
plus the SameSite mode in force). -/
structure SetCookie where
  name : String
  value : String
  maxAge : Int
  path : String
  domain : String
  secure : Bool
  httpOnly : Bool
  sameSite : SameSite
deriving DecidableEq, Repr

/-- Cookie-clearing action used in LoginEnd:
`c.SetCookie(name, "", -1, "/", "", scheme == "https", true)`. -/
def clearCookie (name : String) (https : Bool) : SetCookie :=
  { name := name, value := "", maxAge := -1, path := "/", domain := ""
  , secure := https, httpOnly := true, sameSite := .defaultMode }

/-- golang.org/x/oauth2 Token as the agent stores and decodes it: access token,
refresh token, expiry as seconds since epoch with 0 modelling the Go zero time
(token never expires). -/
structure Token where
  accessToken : String
  refreshToken : String
  expiry : Nat
deriving DecidableEq, Repr

/-- oauth2 `Token.expired`: false when Expiry is the zero time, otherwise true
iff Expiry minus the 10-second delta lies before the current time. -/
def Token.expired (t : Token) (now : Nat) : Bool :=
  if t.expiry = 0 then false else decide (t.expiry < now + 10)

/-- oauth2 `Token.Valid`: non-empty access token and not expired. -/
def Token.valid (t : Token) (now : Nat) : Bool :=
  t.accessToken != "" && !(t.expired now)

/-- A verified ID token (go-oidc `IDToken`): the `Nonce` field plus the raw
claims payload it would unmarshal. -/
structure IDToken where
  nonce : String
  claims : List (String × String)
deriving DecidableEq, Repr

/-- Target passed to Go `json.Unmarshal` (via go-oidc `IDToken.Claims` /
`UserInfo.Claims`): either a pointer to a map (what Unmarshal requires) or a
declared-but-uninitialized map value passed by value, as the source `Claims`
handler does. -/
inductive GoUnmarshalTarget where
  | mapPointer
  | nilMapValue
deriving DecidableEq, Repr

/-- Go `json.Unmarshal` of a claims payload into a target: it reports an
InvalidUnmarshalError for any target that is not a non-nil pointer, so a
nil map value passed by value always fails; a map pointer receives the
payload. -/
def goUnmarshalClaims (target : GoUnmarshalTarget) (payload : List (String × String)) :
    Except String (List (String × String)) :=
  match target with
  | .nilMapValue => .error "json: Unmarshal(non-pointer map)"
  | .mapPointer => .ok payload

/-- Modelled from the spec: the authorization URL built by
`o.oauthConfig.AuthCodeURL(state, oidc.Nonce(nonce))` (the oauthConfig lives in
the agent configuration outside the visible source). Per spec 4.2 the URL is
built deterministically from provider metadata and embeds `state` and `nonce`
as query parameters; the record keeps exactly those two embedded parameters. -/
structure AuthCodeURL where
  state : String
  nonce : String
deriving DecidableEq, Repr

/-- Modelled from the spec: `BuildAuthorizationURL(state, nonce)` of 4.2. -/
def authCodeURL (state nonce : String) : AuthCodeURL :=
  { state := state, nonce := nonce }

/-- handlers.go `isLoggedIn`: a token value is present under the token key. -/
def isLoggedIn (sess : Session) : Bool :=
  (sess.get TokenKey).isSome

/-- Environment of `LoginStart`: the bytes the two `randString(16)` calls read
(none = entropy failure) and whether the request scheme is https. -/
structure LoginStartEnv where
  stateBytes : Option (List Nat)
  nonceBytes : Option (List Nat)
  schemeHTTPS : Bool

/-- Output of `LoginStart`. -/
structure LoginStartOut where
  status : Nat
  cookies : List SetCookie
  authURL : Option AuthCodeURL
deriving DecidableEq, Repr

/-- handlers.go `LoginStart`: generate state and nonce (16 random bytes each,
base64url), set both as 1-hour SameSite=Strict cookies on path "/", respond
200 with the authorization URL embedding the same state and nonce. -/
def LoginStart (env : LoginStartEnv) : LoginStartOut :=
  match randString 16 env.stateBytes with
  | none => { status := StatusInternalServerError, cookies := [], authURL := none }
  | some state =>
    match randString 16 env.nonceBytes with
    | none => { status := StatusInternalServerError, cookies := [], authURL := none }
    | some nonce =>
      { status := StatusOK
      , cookies :=
          [ { name := "state", value := state, maxAge := 3600, path := "/", domain := ""
            , secure := env.schemeHTTPS, httpOnly := true, sameSite := .strictMode }
          , { name := "nonce", value := nonce, maxAge := 3600, path := "/", domain := ""
            , secure := env.schemeHTTPS, httpOnly := true, sameSite := .strictMode } ]
      , authURL := some (authCodeURL state nonce) }

/-- Environment of `LoginEnd`: results of the external steps the handler
performs, in source order. `code`, `state`, `queryErr` are what
`requestURL.Query().Get` returns for "code", "state", "error" (empty string
when absent); `stateCookie` / `nonceCookie` are `c.Cookie(...)` results
(`none` = error); `exchange` is `o.oauthConfig.Exchange`; `idTokenExtra` is
`oauth2Token.Extra("id_token")` as a string; `verify` is
`o.verifier.Verify` on that raw ID token; `marshalTok` is
`tokenToJSONString` (json.Marshal); `saveOK` is whether `session.Save()`
succeeds. -/
structure LoginEndEnv where
  bindOK : Bool
  parseOK : Bool
  code : String
  state : String
  queryErr : String
  stateCookie : Option String
  nonceCookie : Option String
  schemeHTTPS : Bool
  exchange : Option Token
  idTokenExtra : Option String
  verify : Option IDToken
  marshalTok : Token → Option String
  saveOK : Bool

/-- Output of `LoginEnd`: response status, the Set-Cookie actions in order,
the in-memory session after the handler, whether a `session.Save()` call
persisted it, which provider calls were made, the Authorization response
header, and the `(handled, logged_in)` body on 200. -/
structure LoginEndOut where
  status : Nat
  cookies : List SetCookie
  session : Session
  persisted : Bool
  exchangeCalled : Bool
  verifyCalled : Bool
  authHeader : Option String
  body : Option (Bool × Bool)
deriving DecidableEq, Repr

/-- Abort helper for LoginEnd paths that set no cookie and touch nothing. -/
def loginEndAbort (status : Nat) (sess : Session) : LoginEndOut :=
  { status := status, cookies := [], session := sess, persisted := false
  , exchangeCalled := false, verifyCalled := false, authHeader := none, body := none }

/-- handlers.go `LoginEnd`, translated step for step: bind the JSON body,
parse the request URL, read `code`/`state`/`error`; if `state` and `error`
are both non-empty map `login_required` to 401 and anything else to 400;
else if `state` and `code` are both non-empty run the completion attempt
(read and clear the state cookie, compare state, read and clear the nonce
cookie, exchange the code, extract and verify the ID token, compare the
nonce claim, serialize and store the token and raw ID token, save the
session, set the bearer header); else report `(handled:=false, loggedIn)`. -/
def LoginEnd (env : LoginEndEnv) (sess : Session) : LoginEndOut :=
  if !env.bindOK then loginEndAbort StatusBadRequest sess
  else if !env.parseOK then loginEndAbort StatusBadRequest sess
  else
    let failed := env.state != "" && env.queryErr != ""
    if failed then
      loginEndAbort
        (if env.queryErr == "login_required" then StatusUnauthorized else StatusBadRequest)
        sess
    else
      let handleAuth := env.state != "" && env.code != ""
      if handleAuth then
        match env.stateCookie with
        | none => loginEndAbort StatusInternalServerError sess
        | some originalState =>
          let cookies1 := [clearCookie "state" env.schemeHTTPS]
          if env.state != originalState then
            { status := StatusBadRequest, cookies := cookies1, session := sess
            , persisted := false, exchangeCalled := false, verifyCalled := false
            , authHeader := none, body := none }
          else
            match env.nonceCookie with
            | none =>
              { status := StatusInternalServerError, cookies := cookies1, session := sess
              , persisted := false, exchangeCalled := false, verifyCalled := false
              , authHeader := none, body := none }
            | some nonce =>
              let cookies2 := cookies1 ++ [clearCookie "nonce" env.schemeHTTPS]
              match env.exchange with
              | none =>
                { status := StatusInternalServerError, cookies := cookies2, session := sess
                , persisted := false, exchangeCalled := true, verifyCalled := false
                , authHeader := none, body := none }
              | some oauth2Token =>
                match env.idTokenExtra with
                | none =>
                  { status := StatusInternalServerError, cookies := cookies2, session := sess
                  , persisted := false, exchangeCalled := true, verifyCalled := false
                  , authHeader := none, body := none }
                | some rawIDToken =>
                  match env.verify with
                  | none =>
                    { status := StatusInternalServerError, cookies := cookies2, session := sess
                    , persisted := false, exchangeCalled := true, verifyCalled := true
                    , authHeader := none, body := none }
                  | some idToken =>
                    if idToken.nonce != nonce then
                      { status := StatusBadRequest, cookies := cookies2, session := sess
                      , persisted := false, exchangeCalled := true, verifyCalled := true
                      , authHeader := none, body := none }
                    else
                      match env.marshalTok oauth2Token with
                      | none =>
                        { status := StatusBadRequest, cookies := cookies2, session := sess
                        , persisted := false, exchangeCalled := true, verifyCalled := true
                        , authHeader := none, body := none }
                      | some tokenString =>
                        let sess1 := (sess.set TokenKey tokenString).set IDTokenKey rawIDToken
                        if !env.saveOK then
                          { status := StatusInternalServerError, cookies := cookies2
                          , session := sess1, persisted := false
                          , exchangeCalled := true, verifyCalled := true
                          , authHeader := none, body := none }
                        else
                          { status := StatusOK, cookies := cookies2, session := sess1
                          , persisted := true, exchangeCalled := true, verifyCalled := true
                          , authHeader := some ("Bearer " ++ oauth2Token.accessToken)
                          , body := some (true, true) }
      else
        { status := StatusOK, cookies := [], session := sess, persisted := false
        , exchangeCalled := false, verifyCalled := false, authHeader := none
        , body := some (false, isLoggedIn sess) }

/-- Shape of the selected user-info claims UserInfo decodes (into a pointer
target, which succeeds). -/
structure UserInfoClaimsShape where
  username : String
  givenName : String
  familyName : String
  picture : String
  updatedAt : Int
deriving DecidableEq, Repr

/-- Environment of `UserInfo`: the JSON token decoder, the provider
user-info call result (the subject on success), and the claims decode
result. -/
structure UserInfoEnv where
  decode : String → Option Token
  providerInfo : Option String
  infoClaims : Option UserInfoClaimsShape

/-- Body of a successful UserInfo response (models.UserInfoResponse). -/
structure UserInfoRespBody where
  subject : String
  preferredUsername : String
  givenName : String
  updatedAt : Int
  familyName : String
  picture : String
deriving DecidableEq, Repr

/-- Output of `UserInfo`. -/
structure UserInfoOut where
  status : Nat
  body : Option UserInfoRespBody
deriving DecidableEq, Repr

/-- handlers.go `UserInfo`: 401 without a session token, 500 on decode,
provider or claims failure, else 200 with the mapped claims. -/
def UserInfo (env : UserInfoEnv) (sess : Session) : UserInfoOut :=
  match sess.get TokenKey with
  | none => { status := StatusUnauthorized, body := none }
  | some tokenRaw =>
    match env.decode tokenRaw with
    | none => { status := StatusInternalServerError, body := none }
    | some _token =>
      match env.providerInfo with
      | none => { status := StatusInternalServerError, body := none }
      | some subject =>
        match env.infoClaims with
        | none => { status := StatusInternalServerError, body := none }
        | some cl =>
          { status := StatusOK
          , body := some
              { subject := subject, preferredUsername := cl.username
              , givenName := cl.givenName, updatedAt := cl.updatedAt
              , familyName := cl.familyName, picture := cl.picture } }

/-- Environment of `Claims`: the ID-token verifier. -/
structure ClaimsEnv where
  verify : String → Option IDToken

/-- Output of `Claims`. -/
structure ClaimsOut where
  status : Nat
  body : Option (List (String × String))
deriving DecidableEq, Repr

/-- handlers.go `Claims`: 401 without a raw ID token in session, 500 on
verification failure; then the handler declares `var claims
map[string]interface` without initializing it and passes that nil map by
value (not a pointer) into `idToken.Claims`, i.e. into json.Unmarshal. -/
def Claims (env : ClaimsEnv) (sess : Session) : ClaimsOut :=
  match sess.get IDTokenKey with
  | none => { status := StatusUnauthorized, body := none }
  | some idTokenRaw =>
    match env.verify idTokenRaw with
    | none => { status := StatusInternalServerError, body := none }
    | some idToken =>
      match goUnmarshalClaims .nilMapValue idToken.claims with
      | .error _ => { status := StatusInternalServerError, body := none }
      | .ok m => { status := StatusOK, body := some m }

/-- Environment of `Refresh`: the JSON token decoder, the refreshed token from the token source, the bytes `generateNewSID` reads, the token serializer,
and whether `session.Save()` succeeds. -/
structure RefreshEnv where
  decode : String → Option Token
  srcToken : Option Token
  sidBytes : Option (List Nat)
  marshalTok : Token → Option String
  saveOK : Bool
  schemeHTTPS : Bool

/-- Output of `Refresh`. -/
structure RefreshOut where
  status : Nat
  session : Session
  persisted : Bool
  cookies : List SetCookie
  authHeader : Option String
deriving DecidableEq, Repr

/-- handlers.go `Refresh`: 401 without a session token; decode it (500 on
failure); obtain a refreshed token (500 on failure); generate a new session
ID (500 on failure); serialize the new token (400 on failure); store token
and session ID, save (500 on failure), set the sessionID cookie and bearer
header, respond 204. -/
def Refresh (env : RefreshEnv) (sess : Session) : RefreshOut :=
  match sess.get TokenKey with
  | none =>
    { status := StatusUnauthorized, session := sess, persisted := false
    , cookies := [], authHeader := none }
  | some tokenRaw =>
    match env.decode tokenRaw with
    | none =>
      { status := StatusInternalServerError, session := sess, persisted := false
      , cookies := [], authHeader := none }
    | some _token =>
      match env.srcToken with
      | none =>
        { status := StatusInternalServerError, session := sess, persisted := false
        , cookies := [], authHeader := none }
      | some newToken =>
        match generateNewSID env.sidBytes with
        | none =>
          { status := StatusInternalServerError, session := sess, persisted := false
          , cookies := [], authHeader := none }
        | some newSID =>
          match env.marshalTok newToken with
          | none =>
            { status := StatusBadRequest, session := sess, persisted := false
            , cookies := [], authHeader := none }
          | some tokenString =>
            let sess1 := (sess.set TokenKey tokenString).set "sessionID" newSID
            if !env.saveOK then
              { status := StatusInternalServerError, session := sess1, persisted := false
              , cookies := [], authHeader := none }
            else
              { status := StatusNoContent, session := sess1, persisted := true
              , cookies :=
                  [ { name := "sessionID", value := newSID, maxAge := 0, path := "/"
                    , domain := "", secure := env.schemeHTTPS, httpOnly := true
                    , sameSite := .defaultMode } ]
              , authHeader := some ("Bearer " ++ newToken.accessToken) }

/-- Environment of `Logout`: `o.LogoutURL` applied to the ID token held in
session, and whether `session.Save()` succeeds. -/
structure LogoutEnv where
  logoutURL : String → Option String
  saveOK : Bool

/-- Output of `Logout`. -/
structure LogoutOut where
  status : Nat
  session : Session
  persisted : Bool
  body : Option String
deriving DecidableEq, Repr

/-- handlers.go `Logout`: 401 without an ID token in session; delete the
ID-token and token entries; save (500 on failure); build the end-session URL
from the locally held ID token (500 on failure); respond 200 with it. -/
def Logout (env : LogoutEnv) (sess : Session) : LogoutOut :=
  match sess.get IDTokenKey with
  | none =>
    { status := StatusUnauthorized, session := sess, persisted := false, body := none }
  | some idToken =>
    let sess1 := (sess.delete IDTokenKey).delete TokenKey
    if !env.saveOK then
      { status := StatusInternalServerError, session := sess1, persisted := false
      , body := none }
    else
      match env.logoutURL idToken with
      | none =>
        { status := StatusInternalServerError, session := sess1, persisted := true
        , body := none }
      | some u =>
        { status := StatusOK, session := sess1, persisted := true, body := some u }

/-- Environment of `CheckAuth`: the JSON token decoder, the current time for
the local `Token.Valid` check, and an oracle for provider network calls.
The handler never consults the provider; the oracle exists so that
independence from it is statable. -/
structure CheckAuthEnv where
  decode : String → Option Token
  now : Nat
  providerOracle : Nat → Option Token

/-- Output of `CheckAuth`: status and the `(status, message)` body. -/
structure CheckAuthOut where
  status : Nat
  body : Option (String × String)
deriving DecidableEq, Repr

/-- handlers.go `CheckAuth`: 401 without a session token; decode it (500 on
failure); evaluate the local `Token.Valid` check; 401 with a failure body
when invalid, 200 with a success body when valid. No provider call. -/
def CheckAuth (env : CheckAuthEnv) (sess : Session) : CheckAuthOut :=
  match sess.get TokenKey with
  | none => { status := StatusUnauthorized, body := none }
  | some tokenRaw =>
    match env.decode tokenRaw with
    | none => { status := StatusInternalServerError, body := none }
    | some token =>
      if !(token.valid env.now) then
        { status := StatusUnauthorized
        , body := some ("failure", "User is not authenticated.") }
      else
        { status := StatusOK
        , body := some ("success", "User is authenticated.") }

/-- A request as the reverse proxy director builds it for the backend:
the original client headers, the backend host and scheme, and the proxy
path parameter. -/
structure BackendRequest where
  headers : List (String × String)
  host : String
  scheme : String
  path : String
deriving DecidableEq, Repr

/-- Environment shared by the two proxies: backend target, the `proxyPath`
parameter, the client request headers, and (for the authenticated proxy)
the JSON token decoder. -/
structure ProxyEnv where
  backendHost : String
  backendScheme : String
  proxyPath : String
  clientHeaders : List (String × String)
  decode : String → Option Token

/-- Output of a proxy handler: the abort status if the request was aborted,
and the backend request if one was constructed and served. -/
structure ProxyOut where
  status : Option Nat
  backendRequest : Option BackendRequest
deriving DecidableEq, Repr

/-- handlers.go `CodeFlowProxy`: 401 without a session token (no backend
request is built); 500 when the stored token does not decode; otherwise
build the director-rewritten request (client headers, backend host and
scheme, proxyPath) with a static token source and serve it. -/
def CodeFlowProxy (env : ProxyEnv) (sess : Session) : ProxyOut :=
  match sess.get TokenKey with
  | none => { status := some StatusUnauthorized, backendRequest := none }
  | some tokenRaw =>
    match env.decode tokenRaw with
    | none => { status := some StatusInternalServerError, backendRequest := none }
    | some _token =>
      { status := none
      , backendRequest := some
          { headers := env.clientHeaders, host := env.backendHost
          , scheme := env.backendScheme, path := env.proxyPath } }

/-- handlers.go `DeviceFlowProxy`: build the director-rewritten request and
serve it; the session is never read. -/
def DeviceFlowProxy (env : ProxyEnv) (_sess : Session) : ProxyOut :=
  { status := none
  , backendRequest := some
      { headers := env.clientHeaders, host := env.backendHost
      , scheme := env.backendScheme, path := env.proxyPath } }

/-! Session store lemmas shared by the claim theorems. -/

/-- Filtering out a key makes a find? for that key fail. -/
theorem find?_filter_bne_self (l : List (String × String)) (k : String) :
    (l.filter (fun p => p.1 != k)).find? (fun p => p.1 == k) = none := by
  induction l with
  | nil => rfl
  | cons p t ih =>
    by_cases h : p.1 = k
    · simp [List.filter_cons, h, ih]
    · simp [List.filter_cons, h, List.find?_cons, ih]

/-- Filtering out a different key leaves a find? unchanged. -/
theorem find?_filter_bne_other (l : List (String × String)) (k k2 : String)
    (hne : k ≠ k2) :
    (l.filter (fun p => p.1 != k2)).find? (fun p => p.1 == k) =
      l.find? (fun p => p.1 == k) := by
  induction l with
  | nil => rfl
  | cons p t ih =>
    by_cases h : p.1 = k2
    · have hpk : p.1 ≠ k := by
        rw [h]; exact fun hk => hne hk.symm
      have hkk : k2 ≠ k := Ne.symm hne
      simp [List.filter_cons, h, List.find?_cons, hpk, hkk, ih]
    · by_cases h2 : p.1 = k
      · simp [List.filter_cons, h, List.find?_cons, h2, hne]
      · simp [List.filter_cons, h, List.find?_cons, h2, ih]

/-- Deleting a key removes it from the session. -/
theorem Session.get_delete_self (s : Session) (k : String) :
    (s.delete k).get k = none := by
  rcases s with ⟨l⟩
  simp [Session.delete, Session.get, find?_filter_bne_self]

/-- Deleting a key leaves other keys untouched. -/
theorem Session.get_delete_ne (s : Session) (k k2 : String) (hne : k ≠ k2) :
    (s.delete k2).get k = s.get k := by
  rcases s with ⟨l⟩
  simp [Session.delete, Session.get, find?_filter_bne_other l k k2 hne]

/-! Claim C1. -/

/-- Concrete LoginEnd environment refuting C1 as stated: the callback carries
non-empty state "a" and code "b" but also `error=login_required`, and the
state cookie holds "c" differing from "a". -/
def envC1 : LoginEndEnv :=
  { bindOK := true, parseOK := true, code := "b", state := "a"
  , queryErr := "login_required", stateCookie := some "c", nonceCookie := none
  , schemeHTTPS := false, exchange := none, idTokenExtra := none, verify := none
  , marshalTok := fun _ => none, saveOK := false }

/-- C1 (counterexample): a LoginEnd request whose callback carries non-empty
state and code and whose callback state differs from the state cookie can
respond 401, not 400, when the callback also carries `error=login_required`:
the error branch runs before the cookie comparison. -/
theorem C1_counterexample :
    envC1.state ≠ "" ∧ envC1.code ≠ "" ∧ envC1.stateCookie = some "c" ∧
      envC1.state ≠ "c" ∧ (LoginEnd envC1 ⟨[]⟩).status = 401 := by
  refine ⟨by decide, by decide, rfl, by decide, by decide⟩

/-- C1 (amended): for every LoginEnd request whose callback carries non-empty
state and code and no error parameter, if the callback state differs from the
value of the state cookie the handler responds 400 Bad Request and the
session is unchanged and never persisted. -/
theorem C1_state_mismatch_yields_400 (env : LoginEndEnv) (sess : Session)
    (s0 : String)
    (hbind : env.bindOK = true) (hparse : env.parseOK = true)
    (hstate : env.state ≠ "") (hcode : env.code ≠ "") (herr : env.queryErr = "")
    (hcookie : env.stateCookie = some s0) (hne : env.state ≠ s0) :
    (LoginEnd env sess).status = 400 ∧ (LoginEnd env sess).session = sess ∧
      (LoginEnd env sess).persisted = false := by
  simp [LoginEnd, hbind, hparse, herr, hcookie, hstate, hcode, hne, loginEndAbort, StatusBadRequest]

/-- Witness for the amended C1 theorem at a concrete input. -/
theorem C1_witness :
    (LoginEnd { envC1 with queryErr := "" } ⟨[]⟩).status = 400 ∧
      (LoginEnd { envC1 with queryErr := "" } ⟨[]⟩).session = (⟨[]⟩ : Session) ∧
      (LoginEnd { envC1 with queryErr := "" } ⟨[]⟩).persisted = false :=
  C1_state_mismatch_yields_400 { envC1 with queryErr := "" } ⟨[]⟩ "c"
    rfl rfl (by decide) (by decide) rfl rfl (by decide)

/-! Claim C2. -/

/-- C2: for every LoginEnd completion attempt (non-empty state and code, no
provider error) in which the callback state matches the state cookie, the
code exchange succeeds, the ID token is present and verifies, if the verified
nonce claim of the verified ID token differs from the nonce cookie then the handler
responds 400 Bad Request and the session is unchanged and never persisted. -/
theorem C2_nonce_mismatch_yields_400 (env : LoginEndEnv) (sess : Session)
    (s0 n raw : String) (tok : Token) (idTok : IDToken)
    (hbind : env.bindOK = true) (hparse : env.parseOK = true)
    (hstate : env.state ≠ "") (hcode : env.code ≠ "") (herr : env.queryErr = "")
    (hcookie : env.stateCookie = some s0) (heq : env.state = s0)
    (hnonce : env.nonceCookie = some n)
    (hex : env.exchange = some tok) (hid : env.idTokenExtra = some raw)
    (hver : env.verify = some idTok) (hmm : idTok.nonce ≠ n) :
    (LoginEnd env sess).status = 400 ∧ (LoginEnd env sess).session = sess ∧
      (LoginEnd env sess).persisted = false := by
  have hs0 : s0 ≠ "" := heq ▸ hstate
  simp [LoginEnd, hbind, hparse, herr, hcookie, heq, hs0, hcode, hnonce, hex, hid,
    hver, hmm, StatusBadRequest]

/-- Concrete LoginEnd environment for the C2 witness: matching state, verified
ID token with nonce claim "x" while the nonce cookie holds "n". -/
def envC2 : LoginEndEnv :=
  { bindOK := true, parseOK := true, code := "b", state := "s"
  , queryErr := "", stateCookie := some "s", nonceCookie := some "n"
  , schemeHTTPS := false, exchange := some { accessToken := "A", refreshToken := "R", expiry := 0 }
  , idTokenExtra := some "raw"
  , verify := some { nonce := "x", claims := [] }
  , marshalTok := fun _ => some "tokjson", saveOK := true }

/-- Witness for C2 at a concrete input. -/
theorem C2_witness :
    (LoginEnd envC2 ⟨[]⟩).status = 400 ∧
      (LoginEnd envC2 ⟨[]⟩).session = (⟨[]⟩ : Session) ∧
      (LoginEnd envC2 ⟨[]⟩).persisted = false :=
  C2_nonce_mismatch_yields_400 envC2 ⟨[]⟩ "s" "n" "raw"
    { accessToken := "A", refreshToken := "R", expiry := 0 }
    { nonce := "x", claims := [] }
    rfl rfl (by decide) (by decide) rfl rfl rfl rfl rfl rfl rfl (by decide)

/-! Claim C3. -/

/-- C3: the authenticated proxy responds 401 and builds no backend request
when the session holds no token, while the device-flow proxy builds the
director-rewritten backend request without ever reading the session (its
output is the same for every session). -/
theorem C3_proxy_gatekeeping (env : ProxyEnv) (sess : Session)
    (hno : sess.get TokenKey = none) :
    CodeFlowProxy env sess =
        { status := some 401, backendRequest := none } ∧
      (DeviceFlowProxy env sess).status = none ∧
      (DeviceFlowProxy env sess).backendRequest =
        some { headers := env.clientHeaders, host := env.backendHost
             , scheme := env.backendScheme, path := env.proxyPath } ∧
      (∀ sess2 : Session, DeviceFlowProxy env sess2 = DeviceFlowProxy env sess) := by
  refine ⟨by simp [CodeFlowProxy, hno, StatusUnauthorized], rfl, rfl, fun _ => rfl⟩

/-- Concrete proxy environment for the C3 witness. -/
def envC3 : ProxyEnv :=
  { backendHost := "api.internal", backendScheme := "https", proxyPath := "/v1/x"
  , clientHeaders := [("Accept", "application/json")], decode := fun _ => none }

/-- Witness for C3 at a concrete input: an empty session. -/
theorem C3_witness :
    CodeFlowProxy envC3 ⟨[]⟩ = { status := some 401, backendRequest := none } ∧
      (DeviceFlowProxy envC3 ⟨[]⟩).status = none ∧
      (DeviceFlowProxy envC3 ⟨[]⟩).backendRequest =
        some { headers := [("Accept", "application/json")], host := "api.internal"
             , scheme := "https", path := "/v1/x" } ∧
      (∀ sess2 : Session, DeviceFlowProxy envC3 sess2 = DeviceFlowProxy envC3 ⟨[]⟩) :=
  C3_proxy_gatekeeping envC3 ⟨[]⟩ rfl

/-! Claim C4. -/

/-- Concrete LoginEnd environment refuting C4 as stated: completion attempt
(state "a", code "b", no error), state cookie "c" mismatching, nonce cookie
present — the handler aborts 400 having cleared only the state cookie. -/
def envC4 : LoginEndEnv :=
  { bindOK := true, parseOK := true, code := "b", state := "a"
  , queryErr := "", stateCookie := some "c", nonceCookie := some "n"
  , schemeHTTPS := false, exchange := none, idTokenExtra := none, verify := none
  , marshalTok := fun _ => none, saveOK := false }

/-- C4 (counterexample): on the state-mismatch abort of a completion attempt
the nonce cookie is NOT cleared — the response carries only the state-cookie
clearing action, refuting "both cookies are cleared on every outcome path
including the state-mismatch abort". -/
theorem C4_counterexample :
    envC4.state ≠ "" ∧ envC4.code ≠ "" ∧ envC4.queryErr = "" ∧
      envC4.nonceCookie = some "n" ∧
      (LoginEnd envC4 ⟨[]⟩).status = 400 ∧
      (LoginEnd envC4 ⟨[]⟩).cookies = [clearCookie "state" false] ∧
      clearCookie "nonce" false ∉ (LoginEnd envC4 ⟨[]⟩).cookies := by
  refine ⟨by decide, by decide, rfl, rfl, by decide, by decide, by decide⟩

/-- C4 (amended): on every completion attempt with the state cookie readable,
the state cookie is cleared (empty value, negative max-age) on every outcome
path — in particular on the state-mismatch abort itself, so it is cleared
regardless of the comparison outcome; the nonce cookie, however, is cleared
only on paths where the state check passes and the nonce cookie is readable,
and from there on every outcome path (exchange, extraction, verification,
nonce comparison, serialization or save failure, and success). -/
theorem C4_cookie_clearing (env : LoginEndEnv) (sess : Session) (s0 : String)
    (hbind : env.bindOK = true) (hparse : env.parseOK = true)
    (hstate : env.state ≠ "") (hcode : env.code ≠ "") (herr : env.queryErr = "")
    (hcookie : env.stateCookie = some s0) :
    clearCookie "state" env.schemeHTTPS ∈ (LoginEnd env sess).cookies ∧
      (env.state ≠ s0 →
        (LoginEnd env sess).cookies = [clearCookie "state" env.schemeHTTPS] ∧
          (LoginEnd env sess).status = 400) ∧
      (env.state = s0 → ∀ n, env.nonceCookie = some n →
        (LoginEnd env sess).cookies =
          [clearCookie "state" env.schemeHTTPS,
            clearCookie "nonce" env.schemeHTTPS]) := by
  by_cases hne : env.state = s0
  · have hs0 : s0 ≠ "" := hne ▸ hstate
    cases hn : env.nonceCookie with
    | none =>
      simp [LoginEnd, hbind, hparse, herr, hcookie, hstate, hcode, hne, hn, hs0]
    | some n =>
      cases hex : env.exchange with
      | none =>
        simp [LoginEnd, hbind, hparse, herr, hcookie, hstate, hcode, hne, hn, hs0, hex]
      | some tok =>
        cases hid : env.idTokenExtra with
        | none =>
          simp [LoginEnd, hbind, hparse, herr, hcookie, hstate, hcode, hne, hn, hs0,
            hex, hid]
        | some raw =>
          cases hver : env.verify with
          | none =>
            simp [LoginEnd, hbind, hparse, herr, hcookie, hstate, hcode, hne, hn, hs0,
              hex, hid, hver]
          | some idTok =>
            by_cases hnn : idTok.nonce = n
            · cases hm : env.marshalTok tok with
              | none =>
                simp [LoginEnd, hbind, hparse, herr, hcookie, hstate, hcode, hne,
                  hn, hs0, hex, hid, hver, hnn, hm]
              | some ts =>
                cases hsv : env.saveOK <;>
                  simp [LoginEnd, hbind, hparse, herr, hcookie, hstate, hcode,
                    hne, hn, hs0, hex, hid, hver, hnn, hm, hsv]
            · simp [LoginEnd, hbind, hparse, herr, hcookie, hstate, hcode, hne,
                hn, hs0, hex, hid, hver, hnn]
  · simp [LoginEnd, hbind, hparse, herr, hcookie, hstate, hcode, hne,
      StatusBadRequest]

/-- Witness for the amended C4 theorem at a concrete input (the state-match
variant of `envC4`, with a verified ID token and a successful save). -/
theorem C4_witness :
    clearCookie "state" false ∈
        (LoginEnd { envC4 with state := "c" } ⟨[]⟩).cookies ∧
      ("c" ≠ "c" →
        (LoginEnd { envC4 with state := "c" } ⟨[]⟩).cookies =
            [clearCookie "state" false] ∧
          (LoginEnd { envC4 with state := "c" } ⟨[]⟩).status = 400) ∧
      ("c" = "c" → ∀ n, ({ envC4 with state := "c" } : LoginEndEnv).nonceCookie = some n →
        (LoginEnd { envC4 with state := "c" } ⟨[]⟩).cookies =
          [clearCookie "state" false, clearCookie "nonce" false]) :=
  C4_cookie_clearing { envC4 with state := "c" } ⟨[]⟩ "c"
    rfl rfl (by decide) (by decide) rfl rfl

/-! Claim C5. -/

/-- Concrete LoginEnd environment refuting C5 as stated: the callback carries
`error=login_required` but an empty `state`, so the provider-error branch is
skipped and the handler reports the polling result with status 200. -/
def envC5 : LoginEndEnv :=
  { bindOK := true, parseOK := true, code := "", state := ""
  , queryErr := "login_required", stateCookie := none, nonceCookie := none
  , schemeHTTPS := false, exchange := none, idTokenExtra := none, verify := none
  , marshalTok := fun _ => none, saveOK := false }

/-- C5 (counterexample): a LoginEnd request with a non-empty error parameter
`login_required` but empty state responds 200 (the status-poll path), not
401: the error branch requires a non-empty state as well. -/
theorem C5_counterexample :
    envC5.queryErr = "login_required" ∧ envC5.queryErr ≠ "" ∧
      envC5.state = "" ∧ (LoginEnd envC5 ⟨[]⟩).status = 200 := by
  refine ⟨rfl, by decide, rfl, by decide⟩

/-- C5 (amended): for every LoginEnd request whose callback carries a
non-empty state and a non-empty error parameter, `error=login_required`
yields 401 and any other error value yields 400; no code exchange or
verification is performed and the session is unchanged and never
persisted. -/
theorem C5_provider_error_mapping (env : LoginEndEnv) (sess : Session)
    (hbind : env.bindOK = true) (hparse : env.parseOK = true)
    (hstate : env.state ≠ "") (herr : env.queryErr ≠ "") :
    (LoginEnd env sess).status =
        (if env.queryErr = "login_required" then 401 else 400) ∧
      (LoginEnd env sess).exchangeCalled = false ∧
      (LoginEnd env sess).verifyCalled = false ∧
      (LoginEnd env sess).session = sess ∧
      (LoginEnd env sess).persisted = false := by
  by_cases hlr : env.queryErr = "login_required" <;>
    simp [LoginEnd, hbind, hparse, hstate, herr, hlr, loginEndAbort,
      StatusUnauthorized, StatusBadRequest]

/-- Witness for the amended C5 theorem at a concrete input. -/
theorem C5_witness :
    (LoginEnd { envC5 with state := "s" } ⟨[]⟩).status = 401 ∧
      (LoginEnd { envC5 with state := "s" } ⟨[]⟩).exchangeCalled = false ∧
      (LoginEnd { envC5 with state := "s" } ⟨[]⟩).verifyCalled = false ∧
      (LoginEnd { envC5 with state := "s" } ⟨[]⟩).session = (⟨[]⟩ : Session) ∧
      (LoginEnd { envC5 with state := "s" } ⟨[]⟩).persisted = false := by
  have h := C5_provider_error_mapping { envC5 with state := "s" } ⟨[]⟩
    rfl rfl (by decide) (by decide)
  simpa using h

/-! Claim C6. -/

/-- After a Logout that found an ID token in the session, the in-memory
session is the original one with the ID-token and token entries deleted,
whatever the save and logout-URL outcomes. -/
theorem Logout_session_after (env : LogoutEnv) (sess : Session) (idt : String)
    (hid : sess.get IDTokenKey = some idt) :
    (Logout env sess).session = (sess.delete IDTokenKey).delete TokenKey := by
  cases hs : env.saveOK <;> cases hu : env.logoutURL idt <;>
    simp [Logout, hid, hs, hu]

/-- C6: once Logout has deleted the token and ID-token entries and persisted
the session, any UserInfo, Claims, Refresh, or CheckAuth request on the
resulting session responds 401 Unauthorized. -/
theorem C6_logout_revokes (env : LogoutEnv) (sess : Session) (idt : String)
    (hid : sess.get IDTokenKey = some idt) (hsave : env.saveOK = true) :
    (Logout env sess).session.get TokenKey = none ∧
      (Logout env sess).session.get IDTokenKey = none ∧
      (Logout env sess).persisted = true ∧
      (∀ uenv : UserInfoEnv, (UserInfo uenv (Logout env sess).session).status = 401) ∧
      (∀ cenv : ClaimsEnv, (Claims cenv (Logout env sess).session).status = 401) ∧
      (∀ renv : RefreshEnv, (Refresh renv (Logout env sess).session).status = 401) ∧
      (∀ caenv : CheckAuthEnv, (CheckAuth caenv (Logout env sess).session).status = 401) := by
  have hafter := Logout_session_after env sess idt hid
  have htok : (Logout env sess).session.get TokenKey = none := by
    rw [hafter]; exact Session.get_delete_self _ _
  have hidt : (Logout env sess).session.get IDTokenKey = none := by
    rw [hafter, Session.get_delete_ne _ IDTokenKey TokenKey (by decide)]
    exact Session.get_delete_self _ _
  refine ⟨htok, hidt, ?_,
    fun uenv => by simp [UserInfo, htok, StatusUnauthorized],
    fun cenv => by simp [Claims, hidt, StatusUnauthorized],
    fun renv => by simp [Refresh, htok, StatusUnauthorized],
    fun caenv => by simp [CheckAuth, htok, StatusUnauthorized]⟩
  cases hu : env.logoutURL idt <;> simp [Logout, hid, hsave, hu]

/-- Concrete session for the C6 witness: holds an ID token and a token. -/
def sessC6 : Session := ⟨[("id_token", "idtok"), ("token", "tokjson")]⟩

/-- Concrete Logout environment for the C6 witness. -/
def lenvC6 : LogoutEnv :=
  { logoutURL := fun _ => some "https://idp.example/logout", saveOK := true }

/-- Concrete UserInfo environment for the C6 witness. -/
def uenvC6 : UserInfoEnv :=
  { decode := fun _ => none, providerInfo := none, infoClaims := none }

/-- Concrete Claims environment for the C6 witness. -/
def cenvC6 : ClaimsEnv := { verify := fun _ => none }

/-- Concrete Refresh environment for the C6 witness. -/
def renvC6 : RefreshEnv :=
  { decode := fun _ => none, srcToken := none, sidBytes := none
  , marshalTok := fun _ => none, saveOK := false, schemeHTTPS := false }

/-- Concrete CheckAuth environment for the C6 witness. -/
def caenvC6 : CheckAuthEnv :=
  { decode := fun _ => none, now := 0, providerOracle := fun _ => none }

/-- Witness for C6 at a concrete input. -/
theorem C6_witness :
    (Logout lenvC6 sessC6).session.get TokenKey = none ∧
      (Logout lenvC6 sessC6).session.get IDTokenKey = none ∧
      (Logout lenvC6 sessC6).persisted = true ∧
      (UserInfo uenvC6 (Logout lenvC6 sessC6).session).status = 401 ∧
      (Claims cenvC6 (Logout lenvC6 sessC6).session).status = 401 ∧
      (Refresh renvC6 (Logout lenvC6 sessC6).session).status = 401 ∧
      (CheckAuth caenvC6 (Logout lenvC6 sessC6).session).status = 401 := by
  obtain ⟨h1, h2, h3, h4, h5, h6, h7⟩ :=
    C6_logout_revokes lenvC6 sessC6 "idtok" rfl rfl
  exact ⟨h1, h2, h3, h4 uenvC6, h5 cenvC6, h6 renvC6, h7 caenvC6⟩

/-! Claim C7. -/

/-- C7: CheckAuth is a purely local liveness check: a session with no token
entry yields 401; with a decodable token it responds 200 with status
"success" while the local token validity check passes, and 401 with status
"failure" and a human-readable message once the stored expiry has passed;
and its result never depends on the provider oracle (no network call). -/
theorem C7_checkauth_local (env : CheckAuthEnv) (sess : Session) :
    (sess.get TokenKey = none → (CheckAuth env sess).status = 401) ∧
      (∀ raw tok, sess.get TokenKey = some raw → env.decode raw = some tok →
        (tok.valid env.now = true →
          CheckAuth env sess =
            { status := 200, body := some ("success", "User is authenticated.") }) ∧
        (tok.expiry ≠ 0 → tok.expiry ≤ env.now →
          CheckAuth env sess =
            { status := 401, body := some ("failure", "User is not authenticated.") })) ∧
      (∀ oracle2, CheckAuth { env with providerOracle := oracle2 } sess =
        CheckAuth env sess) := by
  refine ⟨fun h => by simp [CheckAuth, h, StatusUnauthorized], ?_, fun _ => rfl⟩
  intro raw tok hraw hdec
  constructor
  · intro hv
    simp [CheckAuth, hraw, hdec, hv, StatusOK]
  · intro h0 hle
    have hexp : tok.expired env.now = true := by
      simp [Token.expired, h0]
      omega
    have hv : tok.valid env.now = false := by
      simp [Token.valid, hexp]
    simp [CheckAuth, hraw, hdec, hv, StatusUnauthorized]

/-- Concrete CheckAuth environment for the C7 witness: token expiring at 100,
current time 50 (valid). -/
def caenvC7a : CheckAuthEnv :=
  { decode := fun _ => some { accessToken := "A", refreshToken := "R", expiry := 100 }
  , now := 50, providerOracle := fun _ => none }

/-- Concrete CheckAuth environment for the C7 witness: same token, current time
200 (expiry passed). -/
def caenvC7b : CheckAuthEnv :=
  { decode := fun _ => some { accessToken := "A", refreshToken := "R", expiry := 100 }
  , now := 200, providerOracle := fun _ => none }

/-- Concrete session holding a token entry for the C7 witness. -/
def sessC7 : Session := ⟨[("token", "T")]⟩

/-- Witness for C7 at concrete inputs: no token, valid token, expired token. -/
theorem C7_witness :
    (CheckAuth caenvC7a ⟨[]⟩).status = 401 ∧
      CheckAuth caenvC7a sessC7 =
        { status := 200, body := some ("success", "User is authenticated.") } ∧
      CheckAuth caenvC7b sessC7 =
        { status := 401, body := some ("failure", "User is not authenticated.") } := by
  refine ⟨(C7_checkauth_local caenvC7a ⟨[]⟩).1 rfl, ?_, ?_⟩
  · exact ((C7_checkauth_local caenvC7a sessC7).2.1 "T"
      { accessToken := "A", refreshToken := "R", expiry := 100 } rfl rfl).1 (by decide)
  · exact ((C7_checkauth_local caenvC7b sessC7).2.1 "T"
      { accessToken := "A", refreshToken := "R", expiry := 100 } rfl rfl).2
      (by decide) (by decide)

/-! Claim C8. -/

/-- C8: when both random reads succeed with 16 bytes each, LoginStart
responds 200, sets a state cookie and a nonce cookie holding exactly the
base64url encodings of those bytes (max-age 3600, SameSite=Strict, path "/",
host-only), and the authorization URL embeds the same state and nonce
values. -/
theorem C8_loginstart_state_nonce (env : LoginStartEnv) (bs1 bs2 : List Nat)
    (h1 : env.stateBytes = some bs1) (h2 : env.nonceBytes = some bs2)
    (hl1 : bs1.length = 16) (hl2 : bs2.length = 16) :
    (LoginStart env).status = 200 ∧
      (LoginStart env).cookies =
        [ { name := "state", value := String.mk (base64RawURL bs1), maxAge := 3600
          , path := "/", domain := "", secure := env.schemeHTTPS, httpOnly := true
          , sameSite := .strictMode }
        , { name := "nonce", value := String.mk (base64RawURL bs2), maxAge := 3600
          , path := "/", domain := "", secure := env.schemeHTTPS, httpOnly := true
          , sameSite := .strictMode } ] ∧
      (LoginStart env).authURL =
        some { state := String.mk (base64RawURL bs1)
             , nonce := String.mk (base64RawURL bs2) } := by
  simp [LoginStart, randString, h1, h2, hl1, hl2, authCodeURL, StatusOK]

/-- Concrete LoginStart environment for the C8 witness. -/
def lsenvC8 : LoginStartEnv :=
  { stateBytes := some (List.range 16)
  , nonceBytes := some ((List.range 16).map (· + 64))
  , schemeHTTPS := true }

/-- Witness for C8 at a concrete input. -/
theorem C8_witness :
    (LoginStart lsenvC8).status = 200 ∧
      (LoginStart lsenvC8).cookies =
        [ { name := "state", value := String.mk (base64RawURL (List.range 16))
          , maxAge := 3600, path := "/", domain := "", secure := true
          , httpOnly := true, sameSite := .strictMode }
        , { name := "nonce"
          , value := String.mk (base64RawURL ((List.range 16).map (· + 64)))
          , maxAge := 3600, path := "/", domain := "", secure := true
          , httpOnly := true, sameSite := .strictMode } ] ∧
      (LoginStart lsenvC8).authURL =
        some { state := String.mk (base64RawURL (List.range 16))
             , nonce := String.mk (base64RawURL ((List.range 16).map (· + 64))) } :=
  C8_loginstart_state_nonce lsenvC8 (List.range 16) ((List.range 16).map (· + 64))
    rfl rfl (by decide) (by decide)

/-! Claim C9. -/

/-- C9: the Claims handler never reaches the 200 path the spec describes:
because the handler passes a declared-but-uninitialized (nil) claims map by
value — not a pointer — into the claims decoding call, json.Unmarshal always
fails, so every session holding a raw ID token that re-verifies successfully
gets a 500 response with no claims body (the 401-without-ID-token and
500-on-verification-failure parts behave as specified). -/
theorem C9_claims_always_500 (env : ClaimsEnv) (sess : Session)
    (raw : String) (idTok : IDToken)
    (hid : sess.get IDTokenKey = some raw) (hver : env.verify raw = some idTok) :
    (Claims env sess).status = 500 ∧ (Claims env sess).body = none := by
  simp [Claims, hid, hver, goUnmarshalClaims, StatusInternalServerError]

/-- Concrete session holding a raw ID token for the C9 witness. -/
def sessC9 : Session := ⟨[("id_token", "rawidtok")]⟩

/-- Concrete Claims environment for the C9 witness: verification succeeds with
a claims payload. -/
def cenvC9 : ClaimsEnv :=
  { verify := fun _ => some { nonce := "n", claims := [("sub", "alice")] } }

/-- Witness for C9 at a concrete input: a verifiable ID token still gets
500 and no claims body. -/
theorem C9_witness :
    (Claims cenvC9 sessC9).status = 500 ∧ (Claims cenvC9 sessC9).body = none :=
  C9_claims_always_500 cenvC9 sessC9 "rawidtok"
    { nonce := "n", claims := [("sub", "alice")] } rfl rfl

/-! Claim C10. -/

/-- C10: in both LoginEnd and Refresh, a failure to JSON-serialize the
freshly obtained token aborts with 400 Bad Request (not 500), leaving the
session unchanged and unpersisted. -/
theorem C10_marshal_failure_maps_400 :
    (∀ (env : LoginEndEnv) (sess : Session) (s0 n raw : String)
        (tok : Token) (idTok : IDToken),
      env.bindOK = true → env.parseOK = true →
      env.state ≠ "" → env.code ≠ "" → env.queryErr = "" →
      env.stateCookie = some s0 → env.state = s0 →
      env.nonceCookie = some n →
      env.exchange = some tok → env.idTokenExtra = some raw →
      env.verify = some idTok → idTok.nonce = n →
      env.marshalTok tok = none →
      (LoginEnd env sess).status = 400 ∧ (LoginEnd env sess).session = sess ∧
        (LoginEnd env sess).persisted = false) ∧
    (∀ (renv : RefreshEnv) (sess : Session) (raw sid : String) (t nt : Token),
      sess.get TokenKey = some raw → renv.decode raw = some t →
      renv.srcToken = some nt → generateNewSID renv.sidBytes = some sid →
      renv.marshalTok nt = none →
      (Refresh renv sess).status = 400 ∧ (Refresh renv sess).session = sess ∧
        (Refresh renv sess).persisted = false) := by
  constructor
  · intro env sess s0 n raw tok idTok hbind hparse hstate hcode herr hcookie heq
      hnonce hex hid hver hnn hm
    have hs0 : s0 ≠ "" := heq ▸ hstate
    simp [LoginEnd, hbind, hparse, herr, hcookie, heq, hs0, hcode, hnonce, hex,
      hid, hver, hnn, hm, StatusBadRequest]
  · intro renv sess raw sid t nt hraw hdec hsrc hsid hm
    simp [Refresh, hraw, hdec, hsrc, hsid, hm, StatusBadRequest]

/-- Concrete LoginEnd environment for the C10 witness: the whole completion
attempt succeeds up to token serialization, which fails. -/
def envC10 : LoginEndEnv :=
  { bindOK := true, parseOK := true, code := "b", state := "s"
  , queryErr := "", stateCookie := some "s", nonceCookie := some "n"
  , schemeHTTPS := false
  , exchange := some { accessToken := "A", refreshToken := "R", expiry := 0 }
  , idTokenExtra := some "raw"
  , verify := some { nonce := "n", claims := [] }
  , marshalTok := fun _ => none, saveOK := true }

/-- Concrete Refresh environment for the C10 witness: refresh succeeds up to
token serialization, which fails. -/
def renvC10 : RefreshEnv :=
  { decode := fun _ => some { accessToken := "A", refreshToken := "R", expiry := 0 }
  , srcToken := some { accessToken := "B", refreshToken := "R2", expiry := 0 }
  , sidBytes := some (List.range 16)
  , marshalTok := fun _ => none, saveOK := true, schemeHTTPS := false }

/-- Concrete session holding a token entry for the C10 witness. -/
def sessC10 : Session := ⟨[("token", "oldjson")]⟩

/-- Witness for C10 at concrete inputs. -/
theorem C10_witness :
    ((LoginEnd envC10 ⟨[]⟩).status = 400 ∧
        (LoginEnd envC10 ⟨[]⟩).session = (⟨[]⟩ : Session) ∧
        (LoginEnd envC10 ⟨[]⟩).persisted = false) ∧
      ((Refresh renvC10 sessC10).status = 400 ∧
        (Refresh renvC10 sessC10).session = sessC10 ∧
        (Refresh renvC10 sessC10).persisted = false) :=
  ⟨C10_marshal_failure_maps_400.1 envC10 ⟨[]⟩ "s" "n" "raw"
      { accessToken := "A", refreshToken := "R", expiry := 0 }
      { nonce := "n", claims := [] }
      rfl rfl (by decide) (by decide) rfl rfl rfl rfl rfl rfl rfl rfl rfl,
    C10_marshal_failure_maps_400.2 renvC10 sessC10 "oldjson"
      (String.mk (hexEncode (List.range 16)))
      { accessToken := "A", refreshToken := "R", expiry := 0 }
      { accessToken := "B", refreshToken := "R2", expiry := 0 }
      rfl rfl rfl rfl rfl⟩

end OidcAgent
